import Mathlib

/-!
Shallow embedding of the Web-Accessibility-API gesture core
(`src/app/services.py`, `src/app/models.py`, `src/app/schemas.py`).

Modelling conventions:
* Python `float` confidences/thresholds are modelled as `ℚ`, written in
  `mkRat` form; the literals appearing in the code (0.7, 0.6, 0.5, ...) are
  exact rationals.
* `datetime` timestamps are modelled as `Int` milliseconds, and
  `datetime.utcnow()` becomes an explicit `now : Int` argument
  (`(current_time - last_time).total_seconds() * 1000` becomes `now - last`).
* The SQLAlchemy session is modelled as an explicit `DB` state record holding
  the three tables as lists; `query(...).first()` is `List.find?`, `db.add` is
  appending, and mutation of a fetched row is replacement of the first row
  with the same primary key.  Operations return `(response, newDB)`.
* The `enabled_gestures` TEXT column holds either SQL NULL or a JSON array
  produced by `json.dumps` of a Python list of strings.  Since `json.dumps`
  never yields a falsy string for a list and `json.loads ∘ json.dumps = id`
  on lists of strings, the column is modelled as `Option (List String)`
  (`none` = NULL), and `get_enabled_gestures` / `set_enabled_gestures`
  translate accordingly.
* The in-memory `CooldownManager._last_execution` dict is an association
  list keyed by `(site_id, gesture)` where lookup takes the newest binding
  and update removes the old binding (exact dict semantics).
-/

/-- One entry of the `PROFILES` dict in `services.py`. -/
structure ProfileDefaults where
  confidence_threshold : ℚ
  cooldown_ms : Int
  enabled_gestures : List String
deriving Repr, DecidableEq

/-- Entry `PROFILES["default"]`. -/
def defaultProfileDefaults : ProfileDefaults :=
  { confidence_threshold := mkRat 7 10
    cooldown_ms := 800
    enabled_gestures := ["open_palm", "fist", "swipe_left", "swipe_right", "pinch"] }

/-- Entry `PROFILES["elderly"]`. -/
def elderlyProfileDefaults : ProfileDefaults :=
  { confidence_threshold := mkRat 6 10
    cooldown_ms := 1200
    enabled_gestures := ["open_palm", "fist"] }

/-- Entry `PROFILES["motor_impaired"]`. -/
def motorImpairedProfileDefaults : ProfileDefaults :=
  { confidence_threshold := mkRat 5 10
    cooldown_ms := 1500
    enabled_gestures := ["open_palm"] }

/-- The dict lookup `PROFILES.get(name)` (before the default fallback). -/
def PROFILES_get (name : String) : Option ProfileDefaults :=
  if name = "default" then some defaultProfileDefaults
  else if name = "elderly" then some elderlyProfileDefaults
  else if name = "motor_impaired" then some motorImpairedProfileDefaults
  else none

/-- Function `get_profile_defaults` in `services.py`:
`PROFILES.get(profile_name, PROFILES["default"]).copy()`. -/
def get_profile_defaults (profile_name : String) : ProfileDefaults :=
  (PROFILES_get profile_name).getD defaultProfileDefaults

/-- The dict lookup `GESTURE_ACTION_MAP.get(gesture)` in `services.py`. -/
def GESTURE_ACTION_MAP_get (gesture : String) : Option String :=
  if gesture = "open_palm" then some "scroll_down"
  else if gesture = "fist" then some "scroll_up"
  else if gesture = "swipe_left" then some "focus_previous"
  else if gesture = "swipe_right" then some "focus_next"
  else if gesture = "pinch" then some "click"
  else none

/-- The `SiteConfig` ORM row (`models.py`); `enabled_gestures` is the nullable
JSON column, `none` = SQL NULL. -/
structure SiteConfig where
  site_id : String
  enabled_gestures : Option (List String)
  confidence_threshold : ℚ
  cooldown_ms : Int
  profile : String
deriving Repr, DecidableEq

/-- Method `SiteConfig.get_enabled_gestures` (`models.py`): parse the JSON column,
returning `None` when the column is NULL. -/
def SiteConfig.get_enabled_gestures (c : SiteConfig) : Option (List String) :=
  c.enabled_gestures

/-- Method `SiteConfig.set_enabled_gestures` (`models.py`): store the list as JSON,
or NULL when given `None`. -/
def SiteConfig.set_enabled_gestures (c : SiteConfig)
    (gestures_list : Option (List String)) : SiteConfig :=
  { c with enabled_gestures := gestures_list }

/-- The `GestureConfig` ORM row (`models.py`): a site-specific
gesture-to-action override, keyed by `(site_id, gesture)`. -/
structure GestureConfig where
  site_id : String
  gesture : String
  action : String
deriving Repr, DecidableEq

/-- The `GestureEvent` ORM row (`models.py`). -/
structure GestureEvent where
  site_id : String
  gesture : String
  confidence : ℚ
  timestamp : Int
deriving Repr, DecidableEq

/-- The persistent store: the three tables touched by the services. -/
structure DB where
  site_configs : List SiteConfig
  gesture_configs : List GestureConfig
  events : List GestureEvent
deriving Repr, DecidableEq

/-- The empty store. -/
def DB.empty : DB := ⟨[], [], []⟩

/-- Query `db.query(SiteConfig).filter(SiteConfig.site_id == site_id).first()`. -/
def DB.findSiteConfig (db : DB) (site_id : String) : Option SiteConfig :=
  db.site_configs.find? (fun c => decide (c.site_id = site_id))

/-- Query `db.query(GestureConfig).filter(site_id ==, gesture ==).first()`. -/
def DB.findGestureConfig (db : DB) (site_id gesture : String) : Option GestureConfig :=
  db.gesture_configs.find?
    (fun c => decide (c.site_id = site_id ∧ c.gesture = gesture))

/-- Write back a fetched-and-mutated `SiteConfig` row: replace the first row
with the same `site_id`; if none exists (the `db.add` path), append. -/
def replaceSiteConfig : List SiteConfig → SiteConfig → List SiteConfig
  | [], c => [c]
  | x :: xs, c =>
      if x.site_id = c.site_id then c :: xs else x :: replaceSiteConfig xs c

/-- Mutate the first `GestureConfig` row matching `(site_id, gesture)`
(`existing_config.action = request.action`). -/
def updateFirstGestureConfig :
    List GestureConfig → String → String → String → List GestureConfig
  | [], _, _, _ => []
  | c :: cs, s, g, a =>
      if c.site_id = s ∧ c.gesture = g then { c with action := a } :: cs
      else c :: updateFirstGestureConfig cs s g a

/-- The in-memory `CooldownManager._last_execution` dict:
`(site_id, gesture) ↦ last execution time` (ms). -/
abbrev CooldownState := List ((String × String) × Int)

/-- Dict lookup on the cooldown state (newest binding wins). -/
def lookupCooldown (st : CooldownState) (k : String × String) : Option Int :=
  (st.find? (fun e => decide (e.1 = k))).map (·.2)

namespace CooldownManager

/-- Method `CooldownManager.is_in_cooldown` (`services.py`): `False` when the pair
has no recorded execution, else `elapsed_ms < cooldown_ms` with
`elapsed_ms = now - last_time`. -/
def is_in_cooldown (st : CooldownState) (site_id gesture : String)
    (cooldown_ms : Int) (now : Int) : Bool :=
  match lookupCooldown st (site_id, gesture) with
  | none => false
  | some last_time => decide (now - last_time < cooldown_ms)

/-- Method `CooldownManager.update_execution_time` (`services.py`):
`self._last_execution[key] = datetime.utcnow()`. -/
def update_execution_time (st : CooldownState) (site_id gesture : String)
    (now : Int) : CooldownState :=
  ((site_id, gesture), now) ::
    st.filter (fun e => !decide (e.1 = (site_id, gesture)))

end CooldownManager

/-- Schema `SiteConfigResponse` (`schemas.py`). -/
structure SiteConfigResponse where
  site_id : String
  enabled_gestures : Option (List String)
  confidence_threshold : ℚ
  cooldown_ms : Int
  profile : String
deriving Repr, DecidableEq

/-- Schema `SiteConfigUpdateRequest` (`schemas.py`): every field of the partial is
optional; Pydantic collapses "absent" and "null" to `None` = `none`. -/
structure SiteConfigUpdateRequest where
  site_id : String
  enabled_gestures : Option (List String)
  confidence_threshold : Option ℚ
  cooldown_ms : Option Int
  profile : Option String
deriving Repr, DecidableEq

/-- Build the `SiteConfigResponse` returned by both `SiteConfigService`
operations from the final ORM row. -/
def mkSiteConfigResponse (c : SiteConfig) : SiteConfigResponse :=
  { site_id := c.site_id
    enabled_gestures := c.get_enabled_gestures
    confidence_threshold := c.confidence_threshold
    cooldown_ms := c.cooldown_ms
    profile := c.profile }

namespace SiteConfigService

/-- Method `SiteConfigService.get_site_config` (`services.py`): return the stored
config, lazily creating one from the "default" profile when absent. -/
def get_site_config (site_id : String) (db : DB) : SiteConfigResponse × DB :=
  match db.findSiteConfig site_id with
  | some config => (mkSiteConfigResponse config, db)
  | none =>
      let profile_defaults := get_profile_defaults "default"
      let config : SiteConfig :=
        SiteConfig.set_enabled_gestures
          { site_id := site_id
            enabled_gestures := none
            confidence_threshold := profile_defaults.confidence_threshold
            cooldown_ms := profile_defaults.cooldown_ms
            profile := "default" }
          (some profile_defaults.enabled_gestures)
      (mkSiteConfigResponse config,
       { db with site_configs := db.site_configs ++ [config] })

/-- The row committed by `SiteConfigService.update_site_config`
(`services.py`): profile defaults apply first when the profile changed (or
the row is new), explicit partial fields overwrite afterwards, and an empty
final profile name falls back to "default".  The blank row created by
`SiteConfig(site_id=...)` is given placeholder attributes; they are always
overwritten before commit because `profile_changed` is true on the creation
path. -/
def updated_row (request : SiteConfigUpdateRequest) (db : DB) : SiteConfig :=
  let found := db.findSiteConfig request.site_id
  let new_profile :=
    match request.profile with
    | some p => p
    | none => match found with
              | some c => c.profile
              | none => "default"
  let profile_changed : Bool :=
    match found with
    | none => true
    | some c =>
        match request.profile with
        | some p => decide (¬ p = c.profile)
        | none => false
  let config : SiteConfig :=
    match found with
    | some c => c
    | none =>
        { site_id := request.site_id
          enabled_gestures := none
          confidence_threshold := mkRat 7 10
          cooldown_ms := 800
          profile := "default" }
  let config :=
    if profile_changed then
      let profile_defaults := get_profile_defaults new_profile
      SiteConfig.set_enabled_gestures
        { config with
            profile := new_profile
            confidence_threshold := profile_defaults.confidence_threshold
            cooldown_ms := profile_defaults.cooldown_ms }
        (some profile_defaults.enabled_gestures)
    else config
  let config :=
    match request.enabled_gestures with
    | some gs => SiteConfig.set_enabled_gestures config (some gs)
    | none => config
  let config :=
    match request.confidence_threshold with
    | some t => { config with confidence_threshold := t }
    | none => config
  let config :=
    match request.cooldown_ms with
    | some m => { config with cooldown_ms := m }
    | none => config
  if config.profile = "" then { config with profile := "default" } else config

/-- Method `SiteConfigService.update_site_config` (`services.py`): compute the
updated row (`updated_row`), commit it, and return it as a response. -/
def update_site_config (request : SiteConfigUpdateRequest) (db : DB) :
    SiteConfigResponse × DB :=
  (mkSiteConfigResponse (updated_row request db),
   { db with site_configs := replaceSiteConfig db.site_configs (updated_row request db) })

end SiteConfigService

/-- Schema `GestureConfigRequest` (`schemas.py`). -/
structure GestureConfigRequest where
  site_id : String
  gesture : String
  action : String
deriving Repr, DecidableEq

/-- Schema `GestureConfigResponse` (`schemas.py`). -/
structure GestureConfigResponse where
  site_id : String
  gesture : String
  action : String
  message : String
deriving Repr, DecidableEq

namespace ConfigService

/-- Method `ConfigService.save_gesture_mapping` (`services.py`): upsert the
site-specific mapping keyed by `(site_id, gesture)`. -/
def save_gesture_mapping (request : GestureConfigRequest) (db : DB) :
    GestureConfigResponse × DB :=
  match db.findGestureConfig request.site_id request.gesture with
  | some _ =>
      ({ site_id := request.site_id
         gesture := request.gesture
         action := request.action
         message := "Gesture mapping updated successfully" },
       { db with gesture_configs :=
           (updateFirstGestureConfig db.gesture_configs
             request.site_id request.gesture request.action) })
  | none =>
      ({ site_id := request.site_id
         gesture := request.gesture
         action := request.action
         message := "Gesture mapping created successfully" },
       { db with gesture_configs :=
           (db.gesture_configs ++
             [{ site_id := request.site_id
                gesture := request.gesture
                action := request.action }]) })

/-- Method `ConfigService.get_action_for_gesture` (`services.py`): site-specific
override first, then the global `GESTURE_ACTION_MAP`. -/
def get_action_for_gesture (site_id gesture : String) (db : DB) :
    Option String :=
  match db.findGestureConfig site_id gesture with
  | some config => some config.action
  | none => GESTURE_ACTION_MAP_get gesture

end ConfigService

/-- Schema `GestureEvaluateRequest` (`schemas.py`). -/
structure GestureEvaluateRequest where
  site_id : String
  gesture : String
  confidence : ℚ
deriving Repr, DecidableEq

/-- Schema `GestureEvaluateResponse` (`schemas.py`). -/
structure GestureEvaluateResponse where
  execute : Bool
  action : Option String
  reason : String
deriving Repr, DecidableEq

namespace GestureService

/-- Method `GestureService.evaluate_gesture` (`services.py`): load-or-create the
site config, then gate on enablement, confidence, action resolution and
cooldown; on success append a `GestureEvent` and record the execution time. -/
def evaluate_gesture (request : GestureEvaluateRequest) (db : DB)
    (cd : CooldownState) (now : Int) :
    GestureEvaluateResponse × DB × CooldownState :=
  let r := SiteConfigService.get_site_config request.site_id db
  let site_config := r.1
  let db := r.2
  let disabled : Bool :=
    match site_config.enabled_gestures with
    | some enabled => !decide (request.gesture ∈ enabled)
    | none => false
  if disabled then
    ({ execute := false, action := none, reason := "gesture_disabled" }, db, cd)
  else if request.confidence < site_config.confidence_threshold then
    ({ execute := false, action := none, reason := "confidence_too_low" }, db, cd)
  else
    match ConfigService.get_action_for_gesture request.site_id request.gesture db with
    | none =>
        ({ execute := false
           action := none
           reason := "Unknown gesture: " ++ request.gesture }, db, cd)
    | some action =>
        if CooldownManager.is_in_cooldown cd request.site_id request.gesture
            site_config.cooldown_ms now then
          ({ execute := false
             action := some action
             reason := "cooldown_active" }, db, cd)
        else
          let gesture_event : GestureEvent :=
            { site_id := request.site_id
              gesture := request.gesture
              confidence := request.confidence
              timestamp := now }
          let db := { db with events := db.events ++ [gesture_event] }
          let cd := CooldownManager.update_execution_time cd
            request.site_id request.gesture now
          ({ execute := true
             action := some action
             reason := "gesture_accepted" }, db, cd)

end GestureService

/-- Expected value: the row created by the lazy default path of
`get_site_config` — the "default" profile's threshold 0.7, cooldown 800 ms,
the five default gestures, and profile name "default". -/
def defaultCreatedConfig (site_id : String) : SiteConfig :=
  ⟨site_id, some ["open_palm", "fist", "swipe_left", "swipe_right", "pinch"],
   mkRat 7 10, 800, "default"⟩

/-- Test fixture: a store whose only site config enables just the gesture
"wave", which has no entry in the global action map. -/
def waveOnlyDB : DB :=
  ⟨[⟨"site-1", some ["wave"], mkRat 5 10, 800, "default"⟩], [], []⟩

/-- Test fixture: a store whose only site config has a 600 ms cooldown and
the five default gestures enabled. -/
def cooldown600DB : DB :=
  ⟨[⟨"site-1", some ["open_palm", "fist", "swipe_left", "swipe_right", "pinch"],
     mkRat 7 10, 600, "default"⟩], [], []⟩

/-- Test fixture: a store whose only site config has an empty (non-NULL)
enabled-gesture list. -/
def emptyEnabledDB : DB :=
  ⟨[⟨"site-1", some [], mkRat 7 10, 800, "default"⟩], [], []⟩

/-- First step of the 600 ms cooldown scenario: evaluate "pinch" at
confidence 0.9 and time 0 against `cooldown600DB`. -/
def pinchAt0 : GestureEvaluateResponse × DB × CooldownState :=
  GestureService.evaluate_gesture ⟨"site-1", "pinch", mkRat 9 10⟩ cooldown600DB [] 0

/-- Second step of the 600 ms cooldown scenario: the same gesture 500 ms
later, against the state left by `pinchAt0`. -/
def pinchAt500 : GestureEvaluateResponse × DB × CooldownState :=
  GestureService.evaluate_gesture ⟨"site-1", "pinch", mkRat 9 10⟩
    pinchAt0.2.1 pinchAt0.2.2 500

/-
Helper lemmas shared by the claim theorems.
-/

/-- Lemma: `List.find?` skips a front segment in which it finds nothing. -/
theorem find?_append_of_none {α : Type} (p : α → Bool) (l₁ l₂ : List α)
    (h : l₁.find? p = none) : (l₁ ++ l₂).find? p = l₂.find? p := by
  simp [List.find?_append, h]

/-- Looking up the written site id after `replaceSiteConfig` yields exactly
the written row. -/
theorem find?_replaceSiteConfig (l : List SiteConfig) (c : SiteConfig) :
    (replaceSiteConfig l c).find? (fun x => decide (x.site_id = c.site_id)) =
      some c := by
  induction l with
  | nil => simp [replaceSiteConfig, List.find?]
  | cons x xs ih =>
      by_cases h : x.site_id = c.site_id
      · simp [replaceSiteConfig, h, List.find?]
      · simp [replaceSiteConfig, h, List.find?, ih]

/-- Every row of `replaceSiteConfig l c` is either the written row or a row
of the original table. -/
theorem mem_replaceSiteConfig {x : SiteConfig} {l : List SiteConfig}
    {c : SiteConfig} (hx : x ∈ replaceSiteConfig l c) : x = c ∨ x ∈ l := by
  induction l with
  | nil => simpa [replaceSiteConfig] using hx
  | cons y ys ih =>
      by_cases h : y.site_id = c.site_id
      · simp only [replaceSiteConfig, if_pos h, List.mem_cons] at hx
        rcases hx with hx | hx
        · exact Or.inl hx
        · exact Or.inr (List.mem_cons_of_mem _ hx)
      · simp only [replaceSiteConfig, if_neg h, List.mem_cons] at hx
        rcases hx with hx | hx
        · exact Or.inr (by simp [hx])
        · rcases ih hx with h1 | h1
          · exact Or.inl h1
          · exact Or.inr (List.mem_cons_of_mem _ h1)

/-- Lemma: `get_site_config` touches only the `site_configs` table. -/
theorem get_site_config_other_tables (site_id : String) (db : DB) :
    (SiteConfigService.get_site_config site_id db).2.gesture_configs =
        db.gesture_configs ∧
    (SiteConfigService.get_site_config site_id db).2.events = db.events := by
  unfold SiteConfigService.get_site_config
  cases h : db.findSiteConfig site_id <;> simp [h]

/-- When the site already has a config row, `get_site_config` returns it
unchanged and does not touch the store. -/
theorem get_site_config_of_found (site_id : String) (db : DB) (c : SiteConfig)
    (h : db.findSiteConfig site_id = some c) :
    SiteConfigService.get_site_config site_id db = (mkSiteConfigResponse c, db) := by
  unfold SiteConfigService.get_site_config
  simp [h]

/-- C4: for every cooldown state and (site, gesture) pair,
`is_in_cooldown` returns true iff an execution was recorded for the pair and
the elapsed time since that recorded execution is strictly less than the
supplied `cooldown_ms`; in particular with no recorded execution it returns
false. -/
theorem is_in_cooldown_iff (st : CooldownState) (site_id gesture : String)
    (cooldown_ms now : Int) :
    CooldownManager.is_in_cooldown st site_id gesture cooldown_ms now = true ↔
      ∃ last, lookupCooldown st (site_id, gesture) = some last ∧
        now - last < cooldown_ms := by
  unfold CooldownManager.is_in_cooldown
  cases h : lookupCooldown st (site_id, gesture) with
  | none => simp [h]
  | some last => simp [h]

/-- C2 counterexample: on a site whose config enables the unmapped gesture
"wave", evaluating "wave" at confidence 0.9 passes the enablement and
confidence gates and resolves no action, yet the returned reason is the
interpolated string "Unknown gesture: wave", not the enum value
`unknown_gesture`. -/
theorem evaluate_unknown_gesture_counterexample :
    (GestureService.evaluate_gesture ⟨"site-1", "wave", mkRat 9 10⟩ waveOnlyDB [] 0).1 =
      ⟨false, none, "Unknown gesture: wave"⟩ ∧
    (GestureService.evaluate_gesture ⟨"site-1", "wave", mkRat 9 10⟩ waveOnlyDB [] 0).1.reason ≠
      "unknown_gesture" := by
  decide

/-- C2 (amended): for every evaluation where the gesture passes the
enablement and confidence gates but neither a site-specific mapping nor the
global default map has an entry for the gesture, `evaluate_gesture` returns
execute=false, action=null, and reason equal to the interpolated string
"Unknown gesture: <gesture>" (rather than the enum value `unknown_gesture`),
leaving the store and cooldown state unchanged. -/
theorem evaluate_unknown_gesture_reason (request : GestureEvaluateRequest)
    (db : DB) (cd : CooldownState) (now : Int)
    (hen : ∀ l, (SiteConfigService.get_site_config request.site_id db).1.enabled_gestures =
      some l → request.gesture ∈ l)
    (hconf : ¬ request.confidence <
      (SiteConfigService.get_site_config request.site_id db).1.confidence_threshold)
    (hact : ConfigService.get_action_for_gesture request.site_id request.gesture
      (SiteConfigService.get_site_config request.site_id db).2 = none) :
    GestureService.evaluate_gesture request db cd now =
      ({ execute := false
         action := none
         reason := "Unknown gesture: " ++ request.gesture },
       (SiteConfigService.get_site_config request.site_id db).2, cd) := by
  unfold GestureService.evaluate_gesture
  cases h1 : (SiteConfigService.get_site_config request.site_id db).1.enabled_gestures with
  | none => simp [h1, hconf, hact]
  | some l => simp [h1, hconf, hact, hen l h1]

/-- C2 witness: the amended theorem applied to the "wave" scenario. -/
theorem evaluate_unknown_gesture_reason_witness :
    GestureService.evaluate_gesture ⟨"site-1", "wave", mkRat 9 10⟩ waveOnlyDB [] 0 =
      ({ execute := false, action := none, reason := "Unknown gesture: wave" },
       (SiteConfigService.get_site_config "site-1" waveOnlyDB).2, []) := by
  have h := evaluate_unknown_gesture_reason ⟨"site-1", "wave", mkRat 9 10⟩ waveOnlyDB [] 0
    (fun l hl => by
      rw [show (SiteConfigService.get_site_config "site-1" waveOnlyDB).1.enabled_gestures =
        some ["wave"] from by decide] at hl
      injection hl with h2
      subst h2
      decide)
    (by decide) (by decide)
  exact h

/-- C3 counterexample: on a fresh site (default config, threshold 0.7), the
gesture "wave" at confidence 0 is strictly below the effective threshold,
yet `evaluate_gesture` denies with reason `gesture_disabled`, not
`confidence_too_low`: the enablement gate fires first. -/
theorem evaluate_confidence_gate_counterexample :
    (0 : ℚ) < (SiteConfigService.get_site_config "site-1" DB.empty).1.confidence_threshold ∧
    (GestureService.evaluate_gesture ⟨"site-1", "wave", 0⟩ DB.empty [] 0).1.reason =
      "gesture_disabled" ∧
    (GestureService.evaluate_gesture ⟨"site-1", "wave", 0⟩ DB.empty [] 0).1.reason ≠
      "confidence_too_low" := by
  decide

/-- C3 (amended): whenever the request's confidence is strictly below the
site's effective confidence threshold AND the gesture passes the enablement
gate (the enabled set is null or contains the gesture), `evaluate_gesture`
returns execute=false, reason `confidence_too_low`, action=null, regardless
of the gesture and of the cooldown state. -/
theorem evaluate_confidence_too_low (request : GestureEvaluateRequest)
    (db : DB) (cd : CooldownState) (now : Int)
    (hen : ∀ l, (SiteConfigService.get_site_config request.site_id db).1.enabled_gestures =
      some l → request.gesture ∈ l)
    (hconf : request.confidence <
      (SiteConfigService.get_site_config request.site_id db).1.confidence_threshold) :
    GestureService.evaluate_gesture request db cd now =
      ({ execute := false, action := none, reason := "confidence_too_low" },
       (SiteConfigService.get_site_config request.site_id db).2, cd) := by
  unfold GestureService.evaluate_gesture
  cases h1 : (SiteConfigService.get_site_config request.site_id db).1.enabled_gestures with
  | none => simp [h1, hconf]
  | some l => simp [h1, hconf, hen l h1]

/-- C3 witness: the amended theorem applied to a fresh site, an enabled
gesture below threshold, and a cooldown state in which the pair is in
cooldown. -/
theorem evaluate_confidence_too_low_witness :
    GestureService.evaluate_gesture ⟨"site-1", "pinch", mkRat 5 10⟩ DB.empty
        [(("site-1", "pinch"), 0)] 0 =
      ({ execute := false, action := none, reason := "confidence_too_low" },
       (SiteConfigService.get_site_config "site-1" DB.empty).2,
       [(("site-1", "pinch"), 0)]) := by
  exact evaluate_confidence_too_low ⟨"site-1", "pinch", mkRat 5 10⟩ DB.empty
    [(("site-1", "pinch"), 0)] 0
    (fun l hl => by
      rw [show (SiteConfigService.get_site_config "site-1" DB.empty).1.enabled_gestures =
        some ["open_palm", "fist", "swipe_left", "swipe_right", "pinch"] from by decide] at hl
      injection hl with h2
      subst h2
      decide)
    (by decide)

/-- C9: on a site whose stored config has an empty (but non-null)
enabled-gesture list, every evaluation is denied with reason
`gesture_disabled` and action=null, for every gesture, every confidence
(including 1.0), and every cooldown state, leaving the store unchanged. -/
theorem evaluate_empty_enabled_denies (db : DB) (site_id : String)
    (cfg : SiteConfig) (hfind : db.findSiteConfig site_id = some cfg)
    (hemp : cfg.enabled_gestures = some [])
    (gesture : String) (confidence : ℚ) (cd : CooldownState) (now : Int) :
    GestureService.evaluate_gesture ⟨site_id, gesture, confidence⟩ db cd now =
      ({ execute := false, action := none, reason := "gesture_disabled" },
       db, cd) := by
  unfold GestureService.evaluate_gesture
  simp [get_site_config_of_found site_id db cfg hfind, mkSiteConfigResponse,
    SiteConfig.get_enabled_gestures, hemp]

/-- C9 witness: the theorem applied to `emptyEnabledDB` at confidence 1.0. -/
theorem evaluate_empty_enabled_denies_witness :
    GestureService.evaluate_gesture ⟨"site-1", "pinch", 1⟩ emptyEnabledDB [] 0 =
      ({ execute := false, action := none, reason := "gesture_disabled" },
       emptyEnabledDB, []) := by
  exact evaluate_empty_enabled_denies emptyEnabledDB "site-1"
    ⟨"site-1", some [], mkRat 7 10, 800, "default"⟩ (by decide) rfl
    "pinch" 1 [] 0

/-- A row found by `findSiteConfig` carries the searched site id. -/
theorem findSiteConfig_site_id {db : DB} {site_id : String} {c : SiteConfig}
    (h : db.findSiteConfig site_id = some c) : c.site_id = site_id := by
  have h2 : db.site_configs.find? (fun x => decide (x.site_id = site_id)) = some c := h
  simpa using List.find?_some h2

/-- C5: when the gesture passes the enablement, confidence and
action-resolution gates but the cooldown is active, `evaluate_gesture`
denies with reason `cooldown_active` while still returning the resolved
action, and changes neither the store nor the cooldown state. -/
theorem evaluate_cooldown_active (request : GestureEvaluateRequest) (db : DB)
    (cd : CooldownState) (now : Int) (action : String)
    (hen : ∀ l, (SiteConfigService.get_site_config request.site_id db).1.enabled_gestures =
      some l → request.gesture ∈ l)
    (hconf : ¬ request.confidence <
      (SiteConfigService.get_site_config request.site_id db).1.confidence_threshold)
    (hact : ConfigService.get_action_for_gesture request.site_id request.gesture
      (SiteConfigService.get_site_config request.site_id db).2 = some action)
    (hcool : CooldownManager.is_in_cooldown cd request.site_id request.gesture
      (SiteConfigService.get_site_config request.site_id db).1.cooldown_ms now = true) :
    GestureService.evaluate_gesture request db cd now =
      ({ execute := false, action := some action, reason := "cooldown_active" },
       (SiteConfigService.get_site_config request.site_id db).2, cd) := by
  unfold GestureService.evaluate_gesture
  cases h1 : (SiteConfigService.get_site_config request.site_id db).1.enabled_gestures with
  | none => simp [h1, hconf, hact, hcool]
  | some l => simp [h1, hconf, hact, hcool, hen l h1]

/-- C5 witness: with a 600 ms cooldown, two evaluations of the same
(site, gesture) at confidence 0.9, 500 ms apart: the first executes with
action "click", the second is denied with `cooldown_active` and still
carries the resolved action. -/
theorem evaluate_cooldown_active_witness :
    pinchAt0.1 = ⟨true, some "click", "gesture_accepted"⟩ ∧
    pinchAt500 =
      ({ execute := false, action := some "click", reason := "cooldown_active" },
       (SiteConfigService.get_site_config "site-1" pinchAt0.2.1).2, pinchAt0.2.2) := by
  constructor
  · decide
  · exact evaluate_cooldown_active ⟨"site-1", "pinch", mkRat 9 10⟩
      pinchAt0.2.1 pinchAt0.2.2 500 "click"
      (fun l hl => by
        rw [show (SiteConfigService.get_site_config "site-1" pinchAt0.2.1).1.enabled_gestures =
          some ["open_palm", "fist", "swipe_left", "swipe_right", "pinch"] from by decide] at hl
        injection hl with h2
        subst h2
        decide)
      (by decide) (by decide) (by decide)

/-- Lemma: `evaluate_gesture` appends exactly the event of the executed request
when it executes, and leaves the event log unchanged when it denies. -/
theorem evaluate_events_eq (request : GestureEvaluateRequest) (db : DB)
    (cd : CooldownState) (now : Int) :
    (GestureService.evaluate_gesture request db cd now).2.1.events =
      db.events ++
        (if (GestureService.evaluate_gesture request db cd now).1.execute then
          [⟨request.site_id, request.gesture, request.confidence, now⟩] else []) := by
  have hev := (get_site_config_other_tables request.site_id db).2
  simp only [GestureService.evaluate_gesture]
  cases h1 : (SiteConfigService.get_site_config request.site_id db).1.enabled_gestures with
  | none =>
      by_cases h2 : request.confidence <
          (SiteConfigService.get_site_config request.site_id db).1.confidence_threshold
      · simp [h2, hev]
      · cases h3 : ConfigService.get_action_for_gesture request.site_id request.gesture
            (SiteConfigService.get_site_config request.site_id db).2 with
        | none => simp [h2, h3, hev]
        | some a =>
            by_cases h4 : CooldownManager.is_in_cooldown cd request.site_id request.gesture
                (SiteConfigService.get_site_config request.site_id db).1.cooldown_ms now = true
            · simp [h2, h3, h4, hev]
            · simp [h2, h3, h4, hev]
  | some l =>
      by_cases hm : request.gesture ∈ l
      · by_cases h2 : request.confidence <
            (SiteConfigService.get_site_config request.site_id db).1.confidence_threshold
        · simp [hm, h2, hev]
        · cases h3 : ConfigService.get_action_for_gesture request.site_id request.gesture
              (SiteConfigService.get_site_config request.site_id db).2 with
          | none => simp [hm, h2, h3, hev]
          | some a =>
              by_cases h4 : CooldownManager.is_in_cooldown cd request.site_id request.gesture
                  (SiteConfigService.get_site_config request.site_id db).1.cooldown_ms now = true
              · simp [hm, h2, h3, h4, hev]
              · simp [hm, h2, h3, h4, hev]
      · simp [hm, hev]

/-- C8: a GestureEvent record is appended iff the evaluation executes — on
every denial path the event log is unchanged, on execution exactly the one
event of the request is appended at the end (so existing records are never
updated or deleted) — and none of the other core operations (config
read/create, config update, mapping upsert) touches the event log. -/
theorem gesture_event_append_iff_execute (request : GestureEvaluateRequest)
    (db : DB) (cd : CooldownState) (now : Int) (site_id : String)
    (ureq : SiteConfigUpdateRequest) (creq : GestureConfigRequest) :
    ((GestureService.evaluate_gesture request db cd now).2.1.events =
      db.events ++
        (if (GestureService.evaluate_gesture request db cd now).1.execute then
          [⟨request.site_id, request.gesture, request.confidence, now⟩] else [])) ∧
    (SiteConfigService.get_site_config site_id db).2.events = db.events ∧
    (SiteConfigService.update_site_config ureq db).2.events = db.events ∧
    (ConfigService.save_gesture_mapping creq db).2.events = db.events := by
  refine ⟨evaluate_events_eq request db cd now,
    (get_site_config_other_tables site_id db).2, rfl, ?_⟩
  cases h : db.findGestureConfig creq.site_id creq.gesture <;>
    simp [ConfigService.save_gesture_mapping, h]

/-- When the update's profile differs from the stored one (or no row is
stored), `update_site_config` commits and returns the row obtained by
applying the new profile's defaults first and the explicit partial fields
second. -/
theorem update_site_config_profile_changed_eq (request : SiteConfigUpdateRequest)
    (db : DB) (p : String) (hp : request.profile = some p)
    (hch : ∀ c, db.findSiteConfig request.site_id = some c → c.profile ≠ p) :
    SiteConfigService.update_site_config request db =
      (mkSiteConfigResponse
        { site_id := request.site_id
          enabled_gestures :=
            some (request.enabled_gestures.getD (get_profile_defaults p).enabled_gestures)
          confidence_threshold :=
            request.confidence_threshold.getD (get_profile_defaults p).confidence_threshold
          cooldown_ms := request.cooldown_ms.getD (get_profile_defaults p).cooldown_ms
          profile := if p = "" then "default" else p },
       { db with site_configs := (replaceSiteConfig db.site_configs
          { site_id := request.site_id
            enabled_gestures :=
              some (request.enabled_gestures.getD (get_profile_defaults p).enabled_gestures)
            confidence_threshold :=
              request.confidence_threshold.getD (get_profile_defaults p).confidence_threshold
            cooldown_ms := request.cooldown_ms.getD (get_profile_defaults p).cooldown_ms
            profile := if p = "" then "default" else p }) }) := by
  cases hfind : db.findSiteConfig request.site_id with
  | none =>
      by_cases hpe : p = ""
      · subst hpe
        rcases hre : request.enabled_gestures with _ | gs <;>
        rcases hrt : request.confidence_threshold with _ | t <;>
        rcases hrm : request.cooldown_ms with _ | m <;>
        simp [SiteConfigService.update_site_config, SiteConfigService.updated_row,
          hp, hfind, hre, hrt, hrm, mkSiteConfigResponse,
          SiteConfig.set_enabled_gestures, SiteConfig.get_enabled_gestures]
      · rcases hre : request.enabled_gestures with _ | gs <;>
        rcases hrt : request.confidence_threshold with _ | t <;>
        rcases hrm : request.cooldown_ms with _ | m <;>
        simp [SiteConfigService.update_site_config, SiteConfigService.updated_row,
          hp, hfind, hre, hrt, hrm, hpe, mkSiteConfigResponse,
          SiteConfig.set_enabled_gestures, SiteConfig.get_enabled_gestures]
  | some c =>
      have hpc : ¬ p = c.profile := fun h => hch c hfind h.symm
      have hcs : c.site_id = request.site_id := findSiteConfig_site_id hfind
      by_cases hpe : p = ""
      · subst hpe
        rcases hre : request.enabled_gestures with _ | gs <;>
        rcases hrt : request.confidence_threshold with _ | t <;>
        rcases hrm : request.cooldown_ms with _ | m <;>
        simp [SiteConfigService.update_site_config, SiteConfigService.updated_row,
          hp, hfind, hre, hrt, hrm, hpc, hcs, mkSiteConfigResponse,
          SiteConfig.set_enabled_gestures, SiteConfig.get_enabled_gestures]
      · rcases hre : request.enabled_gestures with _ | gs <;>
        rcases hrt : request.confidence_threshold with _ | t <;>
        rcases hrm : request.cooldown_ms with _ | m <;>
        simp [SiteConfigService.update_site_config, SiteConfigService.updated_row,
          hp, hfind, hre, hrt, hrm, hpe, hpc, hcs, mkSiteConfigResponse,
          SiteConfig.set_enabled_gestures, SiteConfig.get_enabled_gestures]

/-- C1: for every updateConfig call whose partial carries a profile name
different from the stored one (or hits a site with no prior row), the
profile's defaults are applied first and the explicit fields
(enabledGestures, confidenceThreshold, cooldownMs) are applied afterwards
and win field by field, both in the returned response and in the stored
row. -/
theorem update_config_overrides_win (request : SiteConfigUpdateRequest)
    (db : DB) (p : String) (hp : request.profile = some p)
    (hch : ∀ c, db.findSiteConfig request.site_id = some c → c.profile ≠ p) :
    (SiteConfigService.update_site_config request db).1.confidence_threshold =
      request.confidence_threshold.getD (get_profile_defaults p).confidence_threshold ∧
    (SiteConfigService.update_site_config request db).1.cooldown_ms =
      request.cooldown_ms.getD (get_profile_defaults p).cooldown_ms ∧
    (SiteConfigService.update_site_config request db).1.enabled_gestures =
      some (request.enabled_gestures.getD (get_profile_defaults p).enabled_gestures) ∧
    (p ≠ "" → (SiteConfigService.update_site_config request db).1.profile = p) ∧
    (SiteConfigService.update_site_config request db).2.findSiteConfig request.site_id =
      some { site_id := request.site_id
             enabled_gestures :=
               some (request.enabled_gestures.getD (get_profile_defaults p).enabled_gestures)
             confidence_threshold :=
               request.confidence_threshold.getD (get_profile_defaults p).confidence_threshold
             cooldown_ms := request.cooldown_ms.getD (get_profile_defaults p).cooldown_ms
             profile := if p = "" then "default" else p } := by
  rw [update_site_config_profile_changed_eq request db p hp hch]
  refine ⟨rfl, rfl, rfl, fun hpe => by simp [mkSiteConfigResponse, hpe], ?_⟩
  exact find?_replaceSiteConfig db.site_configs
    { site_id := request.site_id
      enabled_gestures :=
        some (request.enabled_gestures.getD (get_profile_defaults p).enabled_gestures)
      confidence_threshold :=
        request.confidence_threshold.getD (get_profile_defaults p).confidence_threshold
      cooldown_ms := request.cooldown_ms.getD (get_profile_defaults p).cooldown_ms
      profile := if p = "" then "default" else p }

/-- C1 witness: `updateConfig(site, {profile:"elderly",
confidence_threshold:0.9})` on a fresh store yields cooldown 1200 ms and
gestures {open_palm, fist} from the elderly profile, profile "elderly", and
the explicit threshold 0.9 overriding the profile's 0.6. -/
theorem update_config_overrides_win_witness :
    (SiteConfigService.update_site_config
      ⟨"site-1", none, some (mkRat 9 10), none, some "elderly"⟩ DB.empty).1.cooldown_ms = 1200 ∧
    (SiteConfigService.update_site_config
      ⟨"site-1", none, some (mkRat 9 10), none, some "elderly"⟩ DB.empty).1.enabled_gestures =
      some ["open_palm", "fist"] ∧
    (SiteConfigService.update_site_config
      ⟨"site-1", none, some (mkRat 9 10), none, some "elderly"⟩ DB.empty).1.profile = "elderly" ∧
    (SiteConfigService.update_site_config
      ⟨"site-1", none, some (mkRat 9 10), none, some "elderly"⟩ DB.empty).1.confidence_threshold =
      mkRat 9 10 := by
  have h := update_config_overrides_win
    ⟨"site-1", none, some (mkRat 9 10), none, some "elderly"⟩ DB.empty "elderly" rfl
    (fun c hc => by simp [DB.findSiteConfig, DB.empty] at hc)
  exact ⟨h.2.1.trans (by decide), h.2.2.1.trans (by decide),
    h.2.2.2.1 (by decide), h.1.trans (by decide)⟩

/-- C6: for a site with no stored config, `get_site_config` creates and
persists exactly one row from the "default" profile (threshold 0.7,
cooldown 800 ms, the five default gestures, profile "default"), returns it,
and a second call returns the identical result without creating a second
record. -/
theorem get_site_config_lazy_create_idempotent (site_id : String) (db : DB)
    (habs : db.findSiteConfig site_id = none) :
    SiteConfigService.get_site_config site_id db =
      (⟨site_id, some ["open_palm", "fist", "swipe_left", "swipe_right", "pinch"],
        mkRat 7 10, 800, "default"⟩,
       { db with site_configs := db.site_configs ++ [defaultCreatedConfig site_id] }) ∧
    SiteConfigService.get_site_config site_id
        (SiteConfigService.get_site_config site_id db).2 =
      SiteConfigService.get_site_config site_id db := by
  have h1 : SiteConfigService.get_site_config site_id db =
      (⟨site_id, some ["open_palm", "fist", "swipe_left", "swipe_right", "pinch"],
        mkRat 7 10, 800, "default"⟩,
       { db with site_configs := db.site_configs ++ [defaultCreatedConfig site_id] }) := by
    unfold SiteConfigService.get_site_config
    simp [habs, mkSiteConfigResponse, SiteConfig.set_enabled_gestures,
      SiteConfig.get_enabled_gestures, get_profile_defaults, PROFILES_get,
      defaultProfileDefaults, defaultCreatedConfig]
  refine ⟨h1, ?_⟩
  rw [h1]
  have h0 : db.site_configs.find? (fun c => decide (c.site_id = site_id)) = none := habs
  have h2 : ({ db with site_configs :=
      db.site_configs ++ [defaultCreatedConfig site_id] } : DB).findSiteConfig site_id =
      some (defaultCreatedConfig site_id) := by
    show (db.site_configs ++ [defaultCreatedConfig site_id]).find?
      (fun c => decide (c.site_id = site_id)) = some (defaultCreatedConfig site_id)
    rw [find?_append_of_none _ _ _ h0]
    simp [List.find?, defaultCreatedConfig]
  rw [get_site_config_of_found _ _ _ h2]
  simp [mkSiteConfigResponse, SiteConfig.get_enabled_gestures, defaultCreatedConfig]

/-- C6 witness: the theorem applied to a fresh empty store. -/
theorem get_site_config_lazy_create_idempotent_witness :
    SiteConfigService.get_site_config "site-1" DB.empty =
      (⟨"site-1", some ["open_palm", "fist", "swipe_left", "swipe_right", "pinch"],
        mkRat 7 10, 800, "default"⟩,
       { DB.empty with site_configs :=
          DB.empty.site_configs ++ [defaultCreatedConfig "site-1"] }) ∧
    SiteConfigService.get_site_config "site-1"
        (SiteConfigService.get_site_config "site-1" DB.empty).2 =
      SiteConfigService.get_site_config "site-1" DB.empty := by
  exact get_site_config_lazy_create_idempotent "site-1" DB.empty rfl

/-- Updating the first matching mapping row makes its lookup return the new
action. -/
theorem find?_updateFirstGestureConfig (l : List GestureConfig)
    (s g a : String) (c : GestureConfig)
    (h : l.find? (fun x => decide (x.site_id = s ∧ x.gesture = g)) = some c) :
    (updateFirstGestureConfig l s g a).find?
      (fun x => decide (x.site_id = s ∧ x.gesture = g)) =
      some { c with action := a } := by
  induction l with
  | nil => simp [List.find?] at h
  | cons x xs ih =>
      by_cases hx : x.site_id = s ∧ x.gesture = g
      · have hc : x = c := by simpa [List.find?, hx] using h
        subst hc
        simp [updateFirstGestureConfig, hx, List.find?]
      · have h2 : xs.find? (fun y => decide (y.site_id = s ∧ y.gesture = g)) = some c := by
          rwa [List.find?_cons_of_neg (p := fun y : GestureConfig =>
            decide (y.site_id = s ∧ y.gesture = g)) _ (by simpa using hx)] at h
        simp only [updateFirstGestureConfig, if_neg hx]
        rw [List.find?_cons_of_neg (p := fun y : GestureConfig =>
          decide (y.site_id = s ∧ y.gesture = g)) _ (by simpa using hx)]
        exact ih h2

/-- C7: after `save_gesture_mapping(site, gesture, action)`, action
resolution for (site, gesture) returns that action (the site-specific
override wins over the global default map); in particular saving
("site-1", "pinch", "custom_action") and then evaluating "pinch" at 0.9 on
that fresh site executes with action "custom_action", not the global
default "click". -/
theorem save_mapping_overrides_default (db : DB) (site_id gesture action : String) :
    ConfigService.get_action_for_gesture site_id gesture
      (ConfigService.save_gesture_mapping ⟨site_id, gesture, action⟩ db).2 =
      some action ∧
    (GestureService.evaluate_gesture ⟨"site-1", "pinch", mkRat 9 10⟩
        (ConfigService.save_gesture_mapping
          ⟨"site-1", "pinch", "custom_action"⟩ DB.empty).2 [] 0).1 =
      ⟨true, some "custom_action", "gesture_accepted"⟩ ∧
    GESTURE_ACTION_MAP_get "pinch" = some "click" := by
  refine ⟨?_, by decide, by decide⟩
  cases hfind : db.findGestureConfig site_id gesture with
  | none =>
      have h0 : db.gesture_configs.find?
          (fun x => decide (x.site_id = site_id ∧ x.gesture = gesture)) = none := hfind
      have hfind2 : DB.findGestureConfig
          { db with gesture_configs := db.gesture_configs ++
            [({ site_id := site_id, gesture := gesture, action := action } : GestureConfig)] }
          site_id gesture =
          some { site_id := site_id, gesture := gesture, action := action } := by
        show (db.gesture_configs ++
          [({ site_id := site_id, gesture := gesture, action := action } : GestureConfig)]).find?
            (fun x => decide (x.site_id = site_id ∧ x.gesture = gesture)) = _
        rw [find?_append_of_none _ _ _ h0]
        exact List.find?_cons_of_pos _ (by simp)
      unfold ConfigService.save_gesture_mapping
      simp only [hfind]
      unfold ConfigService.get_action_for_gesture
      rw [hfind2]
  | some c =>
      have hfind2 : DB.findGestureConfig
          { db with gesture_configs :=
            updateFirstGestureConfig db.gesture_configs site_id gesture action }
          site_id gesture = some { c with action := action } :=
        find?_updateFirstGestureConfig db.gesture_configs site_id gesture action c hfind
      unfold ConfigService.save_gesture_mapping
      simp only [hfind]
      unfold ConfigService.get_action_for_gesture
      rw [hfind2]

/-- The row committed by `update_site_config` never has a NULL
enabled-gesture set unless a stored row already had one and neither a
profile change nor an explicit list was supplied. -/
theorem updated_row_enabled_not_null (request : SiteConfigUpdateRequest)
    (db : DB)
    (h : ∀ c, db.findSiteConfig request.site_id = some c →
      c.enabled_gestures ≠ none) :
    (SiteConfigService.updated_row request db).enabled_gestures ≠ none := by
  unfold SiteConfigService.updated_row
  cases hfind : db.findSiteConfig request.site_id with
  | none =>
      rcases hrp : request.profile with _ | p <;>
      rcases hre : request.enabled_gestures with _ | gs <;>
      rcases hrt : request.confidence_threshold with _ | t <;>
      rcases hrm : request.cooldown_ms with _ | m <;>
      simp [hfind, hrp, hre, hrt, hrm, SiteConfig.set_enabled_gestures,
        apply_ite (f := SiteConfig.enabled_gestures)]
  | some c =>
      have hc := h c hfind
      rcases hrp : request.profile with _ | p
      · rcases hre : request.enabled_gestures with _ | gs <;>
        rcases hrt : request.confidence_threshold with _ | t <;>
        rcases hrm : request.cooldown_ms with _ | m <;>
        simp [hfind, hrp, hre, hrt, hrm, SiteConfig.set_enabled_gestures, hc,
          apply_ite (f := SiteConfig.enabled_gestures)]
      · by_cases hpc : p = c.profile <;>
        rcases hre : request.enabled_gestures with _ | gs <;>
        rcases hrt : request.confidence_threshold with _ | t <;>
        rcases hrm : request.cooldown_ms with _ | m <;>
        simp [hfind, hrp, hre, hrt, hrm, hpc, SiteConfig.set_enabled_gestures, hc,
          apply_ite (f := SiteConfig.enabled_gestures)]

/-- C10: the Resolver's operations preserve non-null enabled-gesture sets:
if every stored SiteConfig has a non-null set, then after a
`get_site_config` (lazy creation from a profile) or an
`update_site_config` (profile changes install a profile's concrete list and
a null `enabledGestures` in the partial is treated as absent), every stored
SiteConfig still has a non-null set — the "all gestures enabled" NULL state
is unreachable through these operations. -/
theorem resolver_enabled_gestures_never_null (db : DB)
    (hinv : ∀ c ∈ db.site_configs, c.enabled_gestures ≠ none)
    (site_id : String) (request : SiteConfigUpdateRequest) :
    (∀ c ∈ (SiteConfigService.get_site_config site_id db).2.site_configs,
      c.enabled_gestures ≠ none) ∧
    (∀ c ∈ (SiteConfigService.update_site_config request db).2.site_configs,
      c.enabled_gestures ≠ none) := by
  constructor
  · intro x hx
    cases h : db.findSiteConfig site_id with
    | some c =>
        rw [get_site_config_of_found _ _ _ h] at hx
        exact hinv x hx
    | none =>
        unfold SiteConfigService.get_site_config at hx
        rw [h] at hx
        simp only [SiteConfig.set_enabled_gestures, List.mem_append,
          List.mem_singleton] at hx
        rcases hx with h1 | h1
        · exact hinv x h1
        · rw [h1]
          simp
  · intro x hx
    have hrow : (SiteConfigService.updated_row request db).enabled_gestures ≠ none :=
      updated_row_enabled_not_null request db
        (fun c hc => hinv c (List.mem_of_find?_eq_some hc))
    have hx' : x ∈ replaceSiteConfig db.site_configs
        (SiteConfigService.updated_row request db) := hx
    rcases mem_replaceSiteConfig hx' with h1 | h1
    · rw [h1]; exact hrow
    · exact hinv x h1

/-- C10 witness: the theorem applied to an empty store, a lazy creation,
and a field-free update request. -/
theorem resolver_enabled_gestures_never_null_witness :
    (∀ c ∈ (SiteConfigService.get_site_config "site-1" DB.empty).2.site_configs,
      c.enabled_gestures ≠ none) ∧
    (∀ c ∈ (SiteConfigService.update_site_config
        ⟨"site-1", none, none, none, none⟩ DB.empty).2.site_configs,
      c.enabled_gestures ≠ none) := by
  exact resolver_enabled_gestures_never_null DB.empty
    (fun c hc => absurd hc (List.not_mem_nil c)) "site-1"
    ⟨"site-1", none, none, none, none⟩
